import Mathlib

/-!
Verification of `ocflib/account/submission.py`: the new-account submission
lifecycle (Celery tasks `create_account`, `get_pending_requests`,
`approve_request`, `reject_request`), the pending-request store queries
`username_pending` and `user_has_request_pending`, and the conversions
between `NewAccountRequest` and `StoredNewAccountRequest`.

The MySQL table of stored pending requests is modelled as a
`List StoredNewAccountRequest` (the session's view of the table); side
effects of a task (store writes, Celery events, provisioner calls, mail,
re-enqueued jobs) are made explicit as returned data.
-/

/-- Modelled from the spec: the `handle_warnings` mode constant
`NewAccountRequest.WARNINGS_CREATE` of `ocflib/account/creation.py`
(not under src/). "CREATE: send the account for creation". The three
modes are distinct tags. -/
def WARNINGS_CREATE : String := "create"

/-- Modelled from the spec: `NewAccountRequest.WARNINGS_SUBMIT` of
`ocflib/account/creation.py` (not under src/): queue the request for
staff review when warnings accrue. -/
def WARNINGS_SUBMIT : String := "submit"

/-- Modelled from the spec: `NewAccountRequest.WARNINGS_WARN` of
`ocflib/account/creation.py` (not under src/): give the warnings back to
the caller without persisting or creating. -/
def WARNINGS_WARN : String := "warn"

/-- Modelled from the spec: `NewAccountRequest` of
`ocflib/account/creation.py` (not under src/); spec §3: "username, real
name, is-group flag, university-identity numeric ID (individual) or
organization-identity numeric ID (group), email, encrypted password blob,
and a `handle_warnings` mode". Field names follow the table columns of
`StoredNewAccountRequest` that `from_request` copies from it
(`user_name`, `real_name`, `is_group`, `calnet_uid`, `callink_oid`,
`email`, `encrypted_password`), plus `handle_warnings`. -/
structure NewAccountRequest where
  user_name : String
  real_name : String
  is_group : Bool
  calnet_uid : Nat
  callink_oid : Nat
  email : String
  encrypted_password : List Nat
  handle_warnings : String
deriving Repr, DecidableEq

/-- `StoredNewAccountRequest`: the SQLAlchemy row of the `request` table.
`id` is the surrogate primary key, assigned by the database (modelled as
`Option Nat`, `none` until the database assigns it). -/
structure StoredNewAccountRequest where
  id : Option Nat
  user_name : String
  real_name : String
  is_group : Bool
  calnet_uid : Nat
  callink_oid : Nat
  email : String
  encrypted_password : List Nat
deriving Repr, DecidableEq

/-- The pending store: the contents of the `request` table as seen through
a session. -/
abbrev Store := List StoredNewAccountRequest

/-- `username_pending(session, request)`: whether any stored pending
request has the request's username
(`exists().where(StoredNewAccountRequest.user_name == request.user_name)`). -/
def username_pending (session : Store) (request : NewAccountRequest) : Bool :=
  session.any (fun s => s.user_name == request.user_name)

/-- State-passing form of `username_pending`: the SQLAlchemy `EXISTS`
query reads the table and performs no write, so the session's view of the
store is returned unchanged alongside the boolean. -/
def username_pending_st (request : NewAccountRequest) (session : Store) :
    Bool × Store :=
  (session.any (fun s => s.user_name == request.user_name), session)

/-- `user_has_request_pending(session, request)`: group requests with a
nonzero CalLink OID match on `callink_oid`; individual requests match on
`calnet_uid`; a group request with OID 0 builds no query (`query is None`)
and returns `False`. -/
def user_has_request_pending (session : Store) (request : NewAccountRequest) :
    Bool :=
  if request.is_group && request.callink_oid != 0 then
    session.any (fun s => s.callink_oid == request.callink_oid)
  else if !request.is_group then
    session.any (fun s => s.calnet_uid == request.calnet_uid)
  else
    false

/-- `StoredNewAccountRequest.from_request`: build a row from a
`NewAccountRequest`, copying the seven column fields; `id` is left for the
database to assign. -/
def StoredNewAccountRequest.from_request (request : NewAccountRequest) :
    StoredNewAccountRequest :=
  { id := none
    user_name := request.user_name
    real_name := request.real_name
    is_group := request.is_group
    calnet_uid := request.calnet_uid
    callink_oid := request.callink_oid
    email := request.email
    encrypted_password := request.encrypted_password }

/-- `StoredNewAccountRequest.to_request(handle_warnings)`: rebuild a
`NewAccountRequest` from the row fields that are both in
`NewAccountRequest._fields` and in the table's columns (all request fields
except `handle_warnings`), with `handle_warnings` taken from the argument. -/
def StoredNewAccountRequest.to_request (s : StoredNewAccountRequest)
    (handle_warnings : String) : NewAccountRequest :=
  { user_name := s.user_name
    real_name := s.real_name
    is_group := s.is_group
    calnet_uid := s.calnet_uid
    callink_oid := s.callink_oid
    email := s.email
    encrypted_password := s.encrypted_password
    handle_warnings := handle_warnings }

/-- `to_request()` with the Python default argument
`handle_warnings=NewAccountRequest.WARNINGS_CREATE`, as used by
`get_remove_row_by_user_name`. -/
def StoredNewAccountRequest.to_request_default (s : StoredNewAccountRequest) :
    NewAccountRequest :=
  s.to_request WARNINGS_CREATE

/-- `NewAccountResponse`: status plus ordered list of error/warning
messages. The statuses are the string constants of the source class. -/
structure NewAccountResponse where
  status : String
  errors : List String
deriving Repr, DecidableEq

def NewAccountResponse.CREATED : String := "created"

def NewAccountResponse.FLAGGED : String := "flagged"

def NewAccountResponse.PENDING : String := "pending"

def NewAccountResponse.REJECTED : String := "rejected"

/-- Celery events dispatched by `dispatch_event`, tagged with the source's
event-type strings; the payload is the request (its `to_dict()`), plus the
warnings as `reasons` for `ocflib.account_submitted`. -/
inductive Event where
  | account_submitted : NewAccountRequest → List String → Event
  | account_created : NewAccountRequest → Event
  | account_approved : NewAccountRequest → Event
  | account_rejected : NewAccountRequest → Event
deriving Repr, DecidableEq

/-- Result of one `create_account` task invocation: the returned
`NewAccountResponse` (`none` if the task raised, i.e. the provisioner
failed), the store after the task, the events dispatched, and the
requests passed to `real_create_account`, each in order. -/
structure CreateAccountResult where
  response : Option NewAccountResponse
  store : Store
  events : List Event
  provisioner_calls : List NewAccountRequest
deriving Repr, DecidableEq

/-- `create_account(request)`. `validate` stands for
`validate_request(request, credentials, session)` (external Validator,
already applied to the credentials); `provision` stands for
`real_create_account(request, credentials, report_status)` (external
Provisioner, `Except.error` when it raises). Progress reporting
(`report_status`) is advisory and not modelled. -/
def create_account
    (validate : NewAccountRequest → Store → List String × List String)
    (provision : NewAccountRequest → Except String Unit)
    (store : Store) (request : NewAccountRequest) : CreateAccountResult :=
  let errors := (validate request store).1
  let warnings := (validate request store).2
  let provision_path : CreateAccountResult :=
    match provision request with
    | Except.ok _ =>
        { response := some { status := NewAccountResponse.CREATED, errors := [] }
          store := store
          events := [Event.account_created request]
          provisioner_calls := [request] }
    | Except.error _ =>
        { response := none
          store := store
          events := []
          provisioner_calls := [request] }
  if errors ≠ [] then
    -- Fatal errors; cannot be bypassed, even with staff approval
    { response := some { status := NewAccountResponse.REJECTED
                         errors := errors ++ warnings }
      store := store
      events := []
      provisioner_calls := [] }
  else if warnings ≠ [] then
    if request.handle_warnings = WARNINGS_SUBMIT then
      { response := some { status := NewAccountResponse.PENDING
                           errors := warnings }
        store := store ++ [StoredNewAccountRequest.from_request request]
        events := [Event.account_submitted request warnings]
        provisioner_calls := [] }
    else if request.handle_warnings = WARNINGS_WARN then
      { response := some { status := NewAccountResponse.FLAGGED
                           errors := warnings }
        store := store
        events := []
        provisioner_calls := [] }
    else
      provision_path
  else
    provision_path

/-- Side effects of `approve_request` / `reject_request`, in execution
order: deleting a row (with commit) inside
`get_remove_row_by_user_name`, re-enqueuing `create_account.delay`,
dispatching an event, and `send_rejected_mail`. -/
inductive TaskAction where
  | delete_row : String → TaskAction
  | enqueue_create : NewAccountRequest → TaskAction
  | publish : Event → TaskAction
  | notify_rejected : NewAccountRequest → String → TaskAction
deriving Repr, DecidableEq

/-- Outcome of one `approve_request` / `reject_request` task invocation:
`error = some _` when the task raised (the row was absent, so
`session.delete(None)` raised before any commit), the store after the
task, and the ordered side effects. -/
structure DecisionResult where
  error : Option String
  store : Store
  actions : List TaskAction
deriving Repr, DecidableEq

/-- `get_remove_row_by_user_name(user_name)`: fetch the first stored row
with the username, delete it and commit, and return the reconstructed
request (`row.to_request()`, default `handle_warnings`). When no row
matches, `.first()` returns `None` and `session.delete(None)` raises
before anything is committed: modelled as `none`. -/
def get_remove_row_by_user_name (store : Store) (user_name : String) :
    Option (NewAccountRequest × Store) :=
  match store.find? (fun s => s.user_name == user_name) with
  | none => none
  | some row =>
      some (row.to_request_default,
            store.eraseP (fun s => s.user_name == user_name))

/-- `approve_request(user_name)`: remove the stored row, re-enqueue
`create_account.delay(request)`, then dispatch `ocflib.account_approved`. -/
def approve_request (store : Store) (user_name : String) : DecisionResult :=
  match get_remove_row_by_user_name store user_name with
  | none => { error := some "NotFound", store := store, actions := [] }
  | some (request, store2) =>
      { error := none
        store := store2
        actions := [TaskAction.delete_row user_name,
                    TaskAction.enqueue_create request,
                    TaskAction.publish (Event.account_approved request)] }

/-- `reject_request(user_name)`: remove the stored row, send the
rejection mail with the placeholder reason, then dispatch
`ocflib.account_rejected`. -/
def reject_request (store : Store) (user_name : String) : DecisionResult :=
  match get_remove_row_by_user_name store user_name with
  | none => { error := some "NotFound", store := store, actions := [] }
  | some (request, store2) =>
      { error := none
        store := store2
        actions := [TaskAction.delete_row user_name,
                    TaskAction.notify_rejected request
                      "TODO: come up with a reason",
                    TaskAction.publish (Event.account_rejected request)] }

/-- `get_pending_requests()`: read-only query of every stored row. -/
def get_pending_requests (store : Store) : List StoredNewAccountRequest :=
  store

/-- C7: converting a request to a stored row with `from_request` and back
with `to_request` reproduces every request field (username, real name,
is-group flag, CalNet UID, CalLink OID, email, encrypted password), with
`handle_warnings` set to the explicitly supplied mode; with the default
argument (`to_request()`) the mode is `WARNINGS_CREATE`. -/
theorem from_request_to_request_roundtrip (r : NewAccountRequest)
    (hw : String) :
    (StoredNewAccountRequest.from_request r).to_request hw =
      { r with handle_warnings := hw } ∧
    (StoredNewAccountRequest.from_request r).to_request_default =
      { r with handle_warnings := WARNINGS_CREATE } :=
  ⟨rfl, rfl⟩

/-- C8: `user_has_request_pending` is true exactly when either the request
is a group request with nonzero CalLink OID and some stored row shares
that OID, or the request is an individual request and some stored row
shares its CalNet UID. In particular a group request with OID 0 satisfies
neither disjunct, so the result is false for every store. -/
theorem user_has_request_pending_spec (store : Store)
    (r : NewAccountRequest) :
    user_has_request_pending store r = true ↔
      ((r.is_group = true ∧ r.callink_oid ≠ 0 ∧
          ∃ s ∈ store, s.callink_oid = r.callink_oid) ∨
       (r.is_group = false ∧ ∃ s ∈ store, s.calnet_uid = r.calnet_uid)) := by
  unfold user_has_request_pending
  by_cases hg : r.is_group
  · by_cases ho : r.callink_oid = 0
    · simp [hg, ho]
    · simp [hg, ho, List.any_eq_true]
  · simp [Bool.not_eq_true] at hg
    simp [hg, List.any_eq_true]

/-- C9: `username_pending` is read-only: in state-passing form it leaves
the store unchanged, and running it twice in a row without an intervening
insert returns the same boolean both times (which is `username_pending`
of the original store). -/
theorem username_pending_idempotent (store : Store) (r : NewAccountRequest) :
    (username_pending_st r store).2 = store ∧
    (username_pending_st r (username_pending_st r store).2).1 =
      (username_pending_st r store).1 ∧
    (username_pending_st r (username_pending_st r store).2).2 = store ∧
    (username_pending_st r store).1 = username_pending store r :=
  ⟨rfl, rfl, rfl, rfl⟩

/-- C1: when the Validator returns a non-empty error list, `create_account`
returns REJECTED with the errors followed by the warnings, for every
`handle_warnings` mode, leaving the store unchanged, dispatching no event,
and never calling the Provisioner. -/
theorem create_account_rejected_on_errors
    (validate : NewAccountRequest → Store → List String × List String)
    (provision : NewAccountRequest → Except String Unit)
    (store : Store) (request : NewAccountRequest)
    (h : (validate request store).1 ≠ []) :
    create_account validate provision store request =
      { response := some { status := NewAccountResponse.REJECTED
                           errors := (validate request store).1 ++
                             (validate request store).2 }
        store := store
        events := []
        provisioner_calls := [] } := by
  simp [create_account, h]

theorem create_account_rejected_on_errors_witness :
    create_account (fun _ _ => (["fatal"], ["warn"])) (fun _ => Except.ok ())
        []
        { user_name := "alice", real_name := "Alice A", is_group := false,
          calnet_uid := 12345, callink_oid := 0, email := "alice@x.org",
          encrypted_password := [7], handle_warnings := WARNINGS_CREATE } =
      { response := some { status := NewAccountResponse.REJECTED
                           errors := ["fatal", "warn"] }
        store := []
        events := []
        provisioner_calls := [] } :=
  create_account_rejected_on_errors _ _ _ _ (by decide)

/-- C2: with no errors, a non-empty warning list and mode
`WARNINGS_SUBMIT`, `create_account` appends exactly one stored row built
from the request (whose column fields match the request), dispatches
exactly one `ocflib.account_submitted` event carrying the request with the
warnings as reasons, calls no Provisioner, and returns PENDING with the
warnings as its error list. -/
theorem create_account_submit_pending
    (validate : NewAccountRequest → Store → List String × List String)
    (provision : NewAccountRequest → Except String Unit)
    (store : Store) (request : NewAccountRequest)
    (he : (validate request store).1 = [])
    (hw : (validate request store).2 ≠ [])
    (hm : request.handle_warnings = WARNINGS_SUBMIT) :
    create_account validate provision store request =
      { response := some { status := NewAccountResponse.PENDING
                           errors := (validate request store).2 }
        store := store ++ [StoredNewAccountRequest.from_request request]
        events := [Event.account_submitted request (validate request store).2]
        provisioner_calls := [] } ∧
    (StoredNewAccountRequest.from_request request).user_name =
      request.user_name ∧
    (StoredNewAccountRequest.from_request request).real_name =
      request.real_name ∧
    (StoredNewAccountRequest.from_request request).is_group =
      request.is_group ∧
    (StoredNewAccountRequest.from_request request).calnet_uid =
      request.calnet_uid ∧
    (StoredNewAccountRequest.from_request request).callink_oid =
      request.callink_oid ∧
    (StoredNewAccountRequest.from_request request).email = request.email ∧
    (StoredNewAccountRequest.from_request request).encrypted_password =
      request.encrypted_password := by
  refine ⟨?_, rfl, rfl, rfl, rfl, rfl, rfl, rfl⟩
  simp [create_account, he, hw, hm]

theorem create_account_submit_pending_witness :
    create_account (fun _ _ => ([], ["needs review"])) (fun _ => Except.ok ())
        []
        { user_name := "carol", real_name := "Carol C", is_group := false,
          calnet_uid := 999, callink_oid := 0, email := "carol@x.org",
          encrypted_password := [1], handle_warnings := WARNINGS_SUBMIT } =
      { response := some { status := NewAccountResponse.PENDING
                           errors := ["needs review"] }
        store := [{ id := none, user_name := "carol", real_name := "Carol C",
                    is_group := false, calnet_uid := 999, callink_oid := 0,
                    email := "carol@x.org", encrypted_password := [1] }]
        events := [Event.account_submitted
          { user_name := "carol", real_name := "Carol C", is_group := false,
            calnet_uid := 999, callink_oid := 0, email := "carol@x.org",
            encrypted_password := [1], handle_warnings := WARNINGS_SUBMIT }
          ["needs review"]]
        provisioner_calls := [] } :=
  (create_account_submit_pending _ _ _ _ rfl (by decide) rfl).1

/-- C3: with no errors, a non-empty warning list and mode
`WARNINGS_WARN`, `create_account` returns FLAGGED with the warnings as its
error list, leaves the store unchanged, dispatches no event, and never
calls the Provisioner. -/
theorem create_account_warn_flagged
    (validate : NewAccountRequest → Store → List String × List String)
    (provision : NewAccountRequest → Except String Unit)
    (store : Store) (request : NewAccountRequest)
    (he : (validate request store).1 = [])
    (hw : (validate request store).2 ≠ [])
    (hm : request.handle_warnings = WARNINGS_WARN) :
    create_account validate provision store request =
      { response := some { status := NewAccountResponse.FLAGGED
                           errors := (validate request store).2 }
        store := store
        events := []
        provisioner_calls := [] } := by
  simp [create_account, he, hw, hm, WARNINGS_WARN, WARNINGS_SUBMIT]

theorem create_account_warn_flagged_witness :
    create_account (fun _ _ => ([], ["needs review"])) (fun _ => Except.ok ())
        []
        { user_name := "dave", real_name := "Dave D", is_group := false,
          calnet_uid := 55, callink_oid := 0, email := "dave@x.org",
          encrypted_password := [2], handle_warnings := WARNINGS_WARN } =
      { response := some { status := NewAccountResponse.FLAGGED
                           errors := ["needs review"] }
        store := []
        events := []
        provisioner_calls := [] } :=
  create_account_warn_flagged _ _ _ _ rfl (by decide) rfl

/-- C4: with no errors and either no warnings or mode `WARNINGS_CREATE`,
and a Provisioner call that succeeds, `create_account` calls the
Provisioner exactly once, dispatches exactly one `ocflib.account_created`
event, returns CREATED with an empty error list, and writes nothing to the
store: warnings do not block creation under `WARNINGS_CREATE`. -/
theorem create_account_creates
    (validate : NewAccountRequest → Store → List String × List String)
    (provision : NewAccountRequest → Except String Unit)
    (store : Store) (request : NewAccountRequest)
    (he : (validate request store).1 = [])
    (hc : (validate request store).2 = [] ∨
      request.handle_warnings = WARNINGS_CREATE)
    (hp : provision request = Except.ok ()) :
    create_account validate provision store request =
      { response := some { status := NewAccountResponse.CREATED, errors := [] }
        store := store
        events := [Event.account_created request]
        provisioner_calls := [request] } := by
  rcases hc with hc | hc
  · simp [create_account, he, hc, hp]
  · by_cases hw : (validate request store).2 = []
    · simp [create_account, he, hw, hp]
    · simp [create_account, he, hw, hc, hp, WARNINGS_CREATE,
        WARNINGS_SUBMIT, WARNINGS_WARN]

theorem create_account_creates_witness :
    create_account (fun _ _ => ([], [])) (fun _ => Except.ok ())
        []
        { user_name := "bob", real_name := "Bob B", is_group := false,
          calnet_uid := 12345, callink_oid := 0, email := "bob@x.org",
          encrypted_password := [3], handle_warnings := WARNINGS_CREATE } =
      { response := some { status := NewAccountResponse.CREATED, errors := [] }
        store := []
        events := [Event.account_created
          { user_name := "bob", real_name := "Bob B", is_group := false,
            calnet_uid := 12345, callink_oid := 0, email := "bob@x.org",
            encrypted_password := [3], handle_warnings := WARNINGS_CREATE }]
        provisioner_calls := [
          { user_name := "bob", real_name := "Bob B", is_group := false,
            calnet_uid := 12345, callink_oid := 0, email := "bob@x.org",
            encrypted_password := [3],
            handle_warnings := WARNINGS_CREATE }] } :=
  create_account_creates _ _ _ _ rfl (Or.inl rfl) rfl

/-- C10: with no errors and a non-empty warning list, any
`handle_warnings` value other than the literals `WARNINGS_SUBMIT` and
`WARNINGS_WARN` (not only `WARNINGS_CREATE`) falls through to the creation
path: one Provisioner call (here assumed to succeed), one
`ocflib.account_created` event, CREATED with an empty error list, and no
store write. -/
theorem create_account_other_mode_creates
    (validate : NewAccountRequest → Store → List String × List String)
    (provision : NewAccountRequest → Except String Unit)
    (store : Store) (request : NewAccountRequest)
    (he : (validate request store).1 = [])
    (hw : (validate request store).2 ≠ [])
    (hs : request.handle_warnings ≠ WARNINGS_SUBMIT)
    (hn : request.handle_warnings ≠ WARNINGS_WARN)
    (hp : provision request = Except.ok ()) :
    create_account validate provision store request =
      { response := some { status := NewAccountResponse.CREATED, errors := [] }
        store := store
        events := [Event.account_created request]
        provisioner_calls := [request] } := by
  simp [create_account, he, hw, hs, hn, hp]

theorem create_account_other_mode_creates_witness :
    create_account (fun _ _ => ([], ["needs review"])) (fun _ => Except.ok ())
        []
        { user_name := "erin", real_name := "Erin E", is_group := false,
          calnet_uid := 77, callink_oid := 0, email := "erin@x.org",
          encrypted_password := [4], handle_warnings := "bogus-mode" } =
      { response := some { status := NewAccountResponse.CREATED, errors := [] }
        store := []
        events := [Event.account_created
          { user_name := "erin", real_name := "Erin E", is_group := false,
            calnet_uid := 77, callink_oid := 0, email := "erin@x.org",
            encrypted_password := [4], handle_warnings := "bogus-mode" }]
        provisioner_calls := [
          { user_name := "erin", real_name := "Erin E", is_group := false,
            calnet_uid := 77, callink_oid := 0, email := "erin@x.org",
            encrypted_password := [4],
            handle_warnings := "bogus-mode" }] } :=
  create_account_other_mode_creates _ _ _ _ rfl (by decide) (by decide)
    (by decide) rfl

/-- In a store whose usernames are pairwise distinct (the table's unique
index on `user_name`), after erasing the first row with a given username
no row with that username remains. -/
lemma find?_eraseP_user_name_eq_none (store : Store) (u : String)
    (huniq : store.Pairwise (fun a b => a.user_name ≠ b.user_name)) :
    (store.eraseP (fun s => s.user_name == u)).find?
      (fun s => s.user_name == u) = none := by
  induction store with
  | nil => rfl
  | cons a l ih =>
    rcases List.pairwise_cons.mp huniq with ⟨ha, hl⟩
    by_cases hpa : a.user_name = u
    · rw [List.eraseP_cons_of_pos (by simp [hpa])]
      refine List.find?_eq_none.mpr (fun b hb => ?_)
      simp only [beq_iff_eq]
      intro hbu
      exact ha b hb (by rw [hpa, hbu])
    · rw [List.eraseP_cons_of_neg (by simp [hpa]),
        List.find?_cons_of_neg _ (by simp [hpa])]
      exact ih hl

/-- C5: for a username with no stored row, both `approve_request` and
`reject_request` fail with the NotFound condition (`.first()` returns
`None` and `session.delete(None)` raises before any commit): the error is
surfaced, the store is unchanged, and no action (enqueue, event, mail) is
performed. -/
theorem decisions_notfound (store : Store) (u : String)
    (h : store.find? (fun s => s.user_name == u) = none) :
    approve_request store u =
      { error := some "NotFound", store := store, actions := [] } ∧
    reject_request store u =
      { error := some "NotFound", store := store, actions := [] } := by
  constructor <;>
    simp [approve_request, reject_request, get_remove_row_by_user_name, h]

theorem decisions_notfound_witness :
    approve_request [] "alice" =
      { error := some "NotFound", store := [], actions := [] } ∧
    reject_request [] "alice" =
      { error := some "NotFound", store := [], actions := [] } :=
  decisions_notfound [] "alice" rfl

/-- C6: for a username with a stored row (in a store whose usernames are
pairwise distinct, as the unique index guarantees), `approve_request` and
`reject_request` delete that row as their first action, before the
re-enqueue of `create_account` / the rejection mail and the event; the
resulting store is the original with the row erased, so a subsequent
`approve_request` or `reject_request` for the same username finds no row
and fails with NotFound instead of double-processing. -/
theorem decisions_delete_then_act (store : Store) (u : String)
    (row : StoredNewAccountRequest)
    (huniq : store.Pairwise (fun a b => a.user_name ≠ b.user_name))
    (hfind : store.find? (fun s => s.user_name == u) = some row) :
    approve_request store u =
      { error := none
        store := store.eraseP (fun s => s.user_name == u)
        actions := [TaskAction.delete_row u,
                    TaskAction.enqueue_create row.to_request_default,
                    TaskAction.publish
                      (Event.account_approved row.to_request_default)] } ∧
    reject_request store u =
      { error := none
        store := store.eraseP (fun s => s.user_name == u)
        actions := [TaskAction.delete_row u,
                    TaskAction.notify_rejected row.to_request_default
                      "TODO: come up with a reason",
                    TaskAction.publish
                      (Event.account_rejected row.to_request_default)] } ∧
    approve_request (store.eraseP (fun s => s.user_name == u)) u =
      { error := some "NotFound"
        store := store.eraseP (fun s => s.user_name == u)
        actions := [] } ∧
    reject_request (store.eraseP (fun s => s.user_name == u)) u =
      { error := some "NotFound"
        store := store.eraseP (fun s => s.user_name == u)
        actions := [] } := by
  refine ⟨?_, ?_, ?_, ?_⟩ <;>
    simp [approve_request, reject_request, get_remove_row_by_user_name,
      hfind, find?_eraseP_user_name_eq_none store u huniq]

theorem decisions_delete_then_act_witness :
    approve_request
        [{ id := some 1, user_name := "carol", real_name := "Carol C",
           is_group := false, calnet_uid := 999, callink_oid := 0,
           email := "carol@x.org", encrypted_password := [1] }] "carol" =
      { error := none
        store := []
        actions := [TaskAction.delete_row "carol",
                    TaskAction.enqueue_create
                      { user_name := "carol", real_name := "Carol C",
                        is_group := false, calnet_uid := 999,
                        callink_oid := 0, email := "carol@x.org",
                        encrypted_password := [1],
                        handle_warnings := WARNINGS_CREATE },
                    TaskAction.publish (Event.account_approved
                      { user_name := "carol", real_name := "Carol C",
                        is_group := false, calnet_uid := 999,
                        callink_oid := 0, email := "carol@x.org",
                        encrypted_password := [1],
                        handle_warnings := WARNINGS_CREATE })] } ∧
    reject_request
        [{ id := some 1, user_name := "carol", real_name := "Carol C",
           is_group := false, calnet_uid := 999, callink_oid := 0,
           email := "carol@x.org", encrypted_password := [1] }] "carol" =
      { error := none
        store := []
        actions := [TaskAction.delete_row "carol",
                    TaskAction.notify_rejected
                      { user_name := "carol", real_name := "Carol C",
                        is_group := false, calnet_uid := 999,
                        callink_oid := 0, email := "carol@x.org",
                        encrypted_password := [1],
                        handle_warnings := WARNINGS_CREATE }
                      "TODO: come up with a reason",
                    TaskAction.publish (Event.account_rejected
                      { user_name := "carol", real_name := "Carol C",
                        is_group := false, calnet_uid := 999,
                        callink_oid := 0, email := "carol@x.org",
                        encrypted_password := [1],
                        handle_warnings := WARNINGS_CREATE })] } ∧
    approve_request [] "carol" =
      { error := some "NotFound", store := [], actions := [] } ∧
    reject_request [] "carol" =
      { error := some "NotFound", store := [], actions := [] } :=
  decisions_delete_then_act
    [{ id := some 1, user_name := "carol", real_name := "Carol C",
       is_group := false, calnet_uid := 999, callink_oid := 0,
       email := "carol@x.org", encrypted_password := [1] }] "carol"
    { id := some 1, user_name := "carol", real_name := "Carol C",
      is_group := false, calnet_uid := 999, callink_oid := 0,
      email := "carol@x.org", encrypted_password := [1] }
    (List.pairwise_singleton _ _) (by decide)
